import Mathlib

/-!
Verification of the jobs service of the go-travis client library
(`jobs.go`), a typed binding to the Travis CI REST API.

The embedding is shallow: each Go service method becomes a pure Lean
function over an explicit transport environment (`Env`) holding the
external collaborators `urlWithOptions`, `client.NewRequest` and
`client.Do`.  Every method additionally returns a trace of the
collaborator calls it made (`Event`), so that properties such as
"performs no network call" or "issues exactly one GET request" are
directly statable.  The `context.Context` argument of the Go methods
only flows into `client.Do`, so it is absorbed into the environment's
`Do` functions.
-/

namespace Travis

/-- Modelled from the spec: the `Job` record is defined outside the
given sources; per the spec it is a remote build-job record carrying
state, queue and identifiers, created only by deserialization. -/
structure Job where
  id : Nat
  state : String
  queue : String
deriving Repr, DecidableEq

/-- Modelled from the spec: the embedded `ListOptions` record is defined
outside the given sources; per the spec it carries the pagination
parameters (page of results to retrieve, results per page). -/
structure ListOptions where
  page : Nat
  perPage : Nat
deriving Repr, DecidableEq

/-- `JobFindOptions` from `jobs.go`: the optional parameters to
`JobsService.Find`, embedding `ListOptions` and carrying a list of job
ids, a job state filter and a job queue filter.  The zero value of the
Go slice/string fields is the empty list/string. -/
structure JobFindOptions where
  listOptions : ListOptions
  ids : List Nat
  state : String
  queue : String
deriving Repr, DecidableEq

/-- `reflect.DeepEqual` of a `ListOptions` value against its zero value,
as performed by `structs.Field.IsZero` on the embedded field: the whole
embedded record is one field, zero iff all its components are zero. -/
def ListOptions.isZero (lo : ListOptions) : Bool :=
  lo.page == 0 && lo.perPage == 0

/-- The count computed by the loop in `JobFindOptions.IsValid`:
`structs.New(jfo).Fields()` yields one field per declared field of the
record — the embedded `ListOptions` counts as a single field — and each
field contributes 1 when `field.IsZero()` is false. -/
def JobFindOptions.nonZeroValues (jfo : JobFindOptions) : Nat :=
  (if jfo.listOptions.isZero then 0 else 1) +
  (if jfo.ids.isEmpty then 0 else 1) +
  (if jfo.state.isEmpty then 0 else 1) +
  (if jfo.queue.isEmpty then 0 else 1)

/-- `JobFindOptions.IsValid` from `jobs.go`: true iff the number of
non-zero fields is 0 or 1. -/
def JobFindOptions.IsValid (jfo : JobFindOptions) : Bool :=
  jfo.nonZeroValues == 0 || jfo.nonZeroValues == 1

/-- `findJobsResponse` from `jobs.go`: the list envelope
of the find endpoint, wire shape \x7b"jobs": [...]\x7d. -/
structure findJobsResponse where
  jobs : List Job
deriving Repr, DecidableEq

/-- `getJobResponse` from `jobs.go`: the singleton envelope of the get
endpoint, wire shape \x7b"job": \x7b...\x7d\x7d. -/
structure getJobResponse where
  job : Job
deriving Repr, DecidableEq

/-- Modelled from the spec: `getBuildResponse` is defined outside the
given sources; `jobs.go` reads its `Jobs` field, and per the spec a
build record carries an embedded job list. -/
structure getBuildResponse where
  jobs : List Job
deriving Repr, DecidableEq

/-- An HTTP response as this layer sees it: the status code and the
headers are data the caller inspects, never interpreted here. -/
structure HttpResponse where
  statusCode : Nat
  headers : List (String × String)
deriving Repr, DecidableEq

/-- Modelled from the spec: `client.NewRequest(method, url, body, ...)`
builds an HTTP request from the method, the URL produced by
`urlWithOptions`, and an optional body (always absent in `jobs.go`). -/
structure Request where
  method : String
  url : String
  body : Option String
deriving Repr, DecidableEq

/-- The outcome of one `client.Do` round trip: on success a response and
the value decoded into the target envelope; on failure (transport or
decode error) an error string together with whatever raw response the
round trip produced (possibly none). -/
inductive DoResult (α : Type) where
  | success (resp : HttpResponse) (value : α)
  | failure (resp : Option HttpResponse) (err : String)
deriving Repr, DecidableEq

/-- The external collaborators of the jobs service, per the spec an
unspecified transport layer: `urlWithOptions` renders a path plus
optional query options into a URL (or fails on malformed input),
`newRequest` reports whether `client.NewRequest` fails on the request
the service built, and the `Do` functions perform the round trip and
decode into the respective envelope.  All are arbitrary functions: the
theorems hold for every behaviour of the collaborators. -/
structure Env where
  urlWithOptions : String → Option JobFindOptions → Except String String
  newRequest : Request → Option String
  doGetJob : Request → DoResult getJobResponse
  doGetBuild : Request → DoResult getBuildResponse
  doFindJobs : Request → DoResult findJobsResponse
  doNoBody : Request → DoResult Unit

/-- One collaborator call recorded by a service method: a URL
construction, or a request handed to `client.Do` (a network call). -/
inductive Event where
  | urlCall (path : String)
  | sent (req : Request)
deriving Repr, DecidableEq

/-- The Go 3-tuple `(typed result or nil, raw response or nil, error or
nil)` returned by every read operation, extended with the trace of
collaborator calls the method made. -/
structure SvcResult (α : Type) where
  value : Option α
  resp : Option HttpResponse
  err : Option String
  trace : List Event
deriving Repr, DecidableEq

/-- The Go pair `(raw response or nil, error or nil)` returned by the
action operations, extended with the call trace. -/
structure ActionResult where
  resp : Option HttpResponse
  err : Option String
  trace : List Event
deriving Repr, DecidableEq

namespace JobsService

/-- `JobsService.Get` from `jobs.go`: builds `/jobs/<id>` (decimal),
issues one GET, unwraps the singleton envelope. -/
def Get (env : Env) (id : Nat) : SvcResult Job :=
  match env.urlWithOptions ("/jobs/" ++ Nat.repr id) none with
  | .error e => ⟨none, none, some e, [.urlCall ("/jobs/" ++ Nat.repr id)]⟩
  | .ok u =>
    let req : Request := ⟨"GET", u, none⟩
    match env.newRequest req with
    | some e => ⟨none, none, some e, [.urlCall ("/jobs/" ++ Nat.repr id)]⟩
    | none =>
      match env.doGetJob req with
      | .failure resp e =>
          ⟨none, resp, some e, [.urlCall ("/jobs/" ++ Nat.repr id), .sent req]⟩
      | .success resp jobResp =>
          ⟨some jobResp.job, some resp, none,
            [.urlCall ("/jobs/" ++ Nat.repr id), .sent req]⟩

/-- `JobsService.ListFromBuild` from `jobs.go`: builds
`/builds/<buildId>`, issues one GET, returns the build's embedded job
list. -/
def ListFromBuild (env : Env) (buildId : Nat) : SvcResult (List Job) :=
  match env.urlWithOptions ("/builds/" ++ Nat.repr buildId) none with
  | .error e => ⟨none, none, some e, [.urlCall ("/builds/" ++ Nat.repr buildId)]⟩
  | .ok u =>
    let req : Request := ⟨"GET", u, none⟩
    match env.newRequest req with
    | some e => ⟨none, none, some e, [.urlCall ("/builds/" ++ Nat.repr buildId)]⟩
    | none =>
      match env.doGetBuild req with
      | .failure resp e =>
          ⟨none, resp, some e, [.urlCall ("/builds/" ++ Nat.repr buildId), .sent req]⟩
      | .success resp buildResp =>
          ⟨some buildResp.jobs, some resp, none,
            [.urlCall ("/builds/" ++ Nat.repr buildId), .sent req]⟩

/-- The error message `JobsService.Find` returns on an invalid
options record. -/
def validationErrorMsg : String :=
  "more than one value set in provided JobFindOptions instance"

/-- The body of `JobsService.Find` after the validation guard: builds
`/jobs` with the options serialized as query string, issues one GET,
unwraps the list envelope. -/
def findPipeline (env : Env) (opt : Option JobFindOptions) : SvcResult (List Job) :=
  match env.urlWithOptions "/jobs" opt with
  | .error e => ⟨none, none, some e, [.urlCall "/jobs"]⟩
  | .ok u =>
    let req : Request := ⟨"GET", u, none⟩
    match env.newRequest req with
    | some e => ⟨none, none, some e, [.urlCall "/jobs"]⟩
    | none =>
      match env.doFindJobs req with
      | .failure resp e =>
          ⟨none, resp, some e, [.urlCall "/jobs", .sent req]⟩
      | .success resp jobsResp =>
          ⟨some jobsResp.jobs, some resp, none, [.urlCall "/jobs", .sent req]⟩

/-- `JobsService.Find` from `jobs.go`: `if opt != nil && !opt.IsValid()`
return an error before any collaborator call; otherwise run the
pipeline. -/
def Find (env : Env) (opt : Option JobFindOptions) : SvcResult (List Job) :=
  match opt with
  | some o =>
    if !o.IsValid then ⟨none, none, some validationErrorMsg, []⟩
    else findPipeline env (some o)
  | none => findPipeline env none

/-- `JobsService.Cancel` from `jobs.go`: builds `/jobs/<id>/cancel`,
issues one POST with no body, returns the raw response. -/
def Cancel (env : Env) (id : Nat) : ActionResult :=
  match env.urlWithOptions ("/jobs/" ++ Nat.repr id ++ "/cancel") none with
  | .error e => ⟨none, some e, [.urlCall ("/jobs/" ++ Nat.repr id ++ "/cancel")]⟩
  | .ok u =>
    let req : Request := ⟨"POST", u, none⟩
    match env.newRequest req with
    | some e => ⟨none, some e, [.urlCall ("/jobs/" ++ Nat.repr id ++ "/cancel")]⟩
    | none =>
      match env.doNoBody req with
      | .failure resp e =>
          ⟨resp, some e, [.urlCall ("/jobs/" ++ Nat.repr id ++ "/cancel"), .sent req]⟩
      | .success resp _ =>
          ⟨some resp, none, [.urlCall ("/jobs/" ++ Nat.repr id ++ "/cancel"), .sent req]⟩

/-- `JobsService.Restart` from `jobs.go`: builds `/jobs/<id>/restart`,
issues one POST with no body, returns the raw response. -/
def Restart (env : Env) (id : Nat) : ActionResult :=
  match env.urlWithOptions ("/jobs/" ++ Nat.repr id ++ "/restart") none with
  | .error e => ⟨none, some e, [.urlCall ("/jobs/" ++ Nat.repr id ++ "/restart")]⟩
  | .ok u =>
    let req : Request := ⟨"POST", u, none⟩
    match env.newRequest req with
    | some e => ⟨none, some e, [.urlCall ("/jobs/" ++ Nat.repr id ++ "/restart")]⟩
    | none =>
      match env.doNoBody req with
      | .failure resp e =>
          ⟨resp, some e, [.urlCall ("/jobs/" ++ Nat.repr id ++ "/restart"), .sent req]⟩
      | .success resp _ =>
          ⟨some resp, none, [.urlCall ("/jobs/" ++ Nat.repr id ++ "/restart"), .sent req]⟩

end JobsService

/-- Modelled from the spec: a well-formed singleton envelope in the
response to a get of `id` wraps the job record whose identifier is the
requested one (wire contract: `GET /jobs/{id}` returns the job with
that identifier). -/
def wellFormedGetEnvelope (id : Nat) (jr : getJobResponse) : Prop :=
  jr.job.id = id

/-! Concrete sample data used by the witnesses. -/

def egResp : HttpResponse := ⟨200, []⟩

def egResp202 : HttpResponse := ⟨202, []⟩

def egJob : Job := ⟨1, "passed", "builds.linux"⟩

/-- A transport environment in which every collaborator succeeds:
`urlWithOptions` returns its path unchanged, `NewRequest` never fails,
and every round trip decodes the sample job. -/
def egEnv : Env :=
  { urlWithOptions := fun p _ => .ok p
    newRequest := fun _ => none
    doGetJob := fun _ => .success egResp ⟨egJob⟩
    doGetBuild := fun _ => .success egResp ⟨[egJob]⟩
    doFindJobs := fun _ => .success egResp ⟨[egJob]⟩
    doNoBody := fun _ => .success egResp202 () }

/-- A transport environment whose round trips fail with a decode error
while still producing a raw response. -/
def egFailEnv : Env :=
  { egEnv with
    doGetJob := fun _ => .failure (some ⟨500, []⟩) "json decode failed"
    doGetBuild := fun _ => .failure (some ⟨500, []⟩) "json decode failed"
    doFindJobs := fun _ => .failure (some ⟨500, []⟩) "json decode failed" }

def egOptState : JobFindOptions := ⟨⟨0, 0⟩, [], "started", ""⟩

def egOptInvalid : JobFindOptions := ⟨⟨0, 0⟩, [], "started", "builds.linux"⟩

def egOptPaged : JobFindOptions := ⟨⟨2, 0⟩, [], "started", ""⟩

/-- C1: `JobFindOptions.IsValid` returns true iff the number of fields
of the record set to a non-zero value — the embedded `ListOptions`
counting as one field — is 0 or 1; for two or more it returns false.
(Purity is inherent: the embedding is a total function of the record.) -/
theorem isValid_iff_nonZeroValues_le_one (jfo : JobFindOptions) :
    jfo.IsValid = true ↔ (jfo.nonZeroValues = 0 ∨ jfo.nonZeroValues = 1) := by
  simp [JobFindOptions.IsValid]

/-- C9: a `JobFindOptions` with exactly one filter field (ids, state or
queue) non-zero and a non-zero embedded `ListOptions` pagination is
rejected by `IsValid`: pagination counts toward the mutual-exclusion
limit. -/
theorem filter_plus_pagination_invalid (jfo : JobFindOptions)
    (hpag : jfo.listOptions.isZero = false)
    (hone : (jfo.ids ≠ [] ∧ jfo.state = "" ∧ jfo.queue = "") ∨
            (jfo.ids = [] ∧ jfo.state ≠ "" ∧ jfo.queue = "") ∨
            (jfo.ids = [] ∧ jfo.state = "" ∧ jfo.queue ≠ "")) :
    jfo.IsValid = false := by
  rcases hone with ⟨h1, h2, h3⟩ | ⟨h1, h2, h3⟩ | ⟨h1, h2, h3⟩ <;>
    simp [JobFindOptions.IsValid, JobFindOptions.nonZeroValues, hpag,
      h1, h2, h3, String.isEmpty_iff, List.isEmpty_iff]

/-- Witness for C9: state filter `"started"` combined with page 2. -/
theorem filter_plus_pagination_invalid_witness :
    egOptPaged.listOptions.isZero = false ∧ egOptPaged.IsValid = false :=
  ⟨by decide,
   filter_plus_pagination_invalid egOptPaged (by decide)
     (Or.inr (Or.inl (by refine ⟨rfl, ?_, rfl⟩; decide)))⟩

/-- C2: for a non-nil `JobFindOptions` rejected by `IsValid`,
`JobsService.Find` returns a nil job list, a nil response and the
validation error, with an empty collaborator trace: no URL is built and
no request is constructed or sent. -/
theorem find_invalid_short_circuits (env : Env) (o : JobFindOptions)
    (h : o.IsValid = false) :
    JobsService.Find env (some o) =
      ⟨none, none, some JobsService.validationErrorMsg, []⟩ := by
  simp [JobsService.Find, h]

/-- Witness for C2: two filters set (`state` and `queue`) against the
all-succeeding environment. -/
theorem find_invalid_short_circuits_witness :
    egOptInvalid.IsValid = false ∧
    JobsService.Find egEnv (some egOptInvalid) =
      ⟨none, none, some JobsService.validationErrorMsg, []⟩ :=
  ⟨by decide, find_invalid_short_circuits egEnv egOptInvalid (by decide)⟩

/-- C10: for a nil `JobFindOptions` pointer, `JobsService.Find` skips
validation entirely — it is exactly the post-validation pipeline, and
its first collaborator call is always the URL construction for
`/jobs`. -/
theorem find_nil_options_skips_validation (env : Env) :
    JobsService.Find env none = JobsService.findPipeline env none ∧
    (JobsService.Find env none).trace.head? = some (.urlCall "/jobs") := by
  refine ⟨rfl, ?_⟩
  simp only [JobsService.Find, JobsService.findPipeline]
  rcases h : env.urlWithOptions "/jobs" none with e | u
  · rfl
  · rcases h2 : env.newRequest ⟨"GET", u, none⟩ with _ | e
    · rcases h3 : env.doFindJobs ⟨"GET", u, none⟩ with ⟨resp, v⟩ | ⟨resp, e⟩ <;>
        simp [h2, h3]
    · simp [h2]

/-- C5: `JobsService.Get` builds the path `/jobs/<id>` (decimal
rendering of the id), issues exactly one GET request with no body,
and returns the job unwrapped from the singleton envelope together
with the raw response and a nil error. -/
theorem get_builds_path_and_unwraps (env : Env) (id : Nat) (u : String)
    (resp : HttpResponse) (jr : getJobResponse)
    (h1 : env.urlWithOptions ("/jobs/" ++ Nat.repr id) none = .ok u)
    (h2 : env.newRequest ⟨"GET", u, none⟩ = none)
    (h3 : env.doGetJob ⟨"GET", u, none⟩ = .success resp jr) :
    JobsService.Get env id =
      ⟨some jr.job, some resp, none,
        [.urlCall ("/jobs/" ++ Nat.repr id), .sent ⟨"GET", u, none⟩]⟩ := by
  simp [JobsService.Get, h1, h2, h3]

/-- Witness for C5: a get of job 7 against the all-succeeding
environment issues exactly one GET of `/jobs/7`. -/
theorem get_builds_path_and_unwraps_witness :
    JobsService.Get egEnv 7 =
      ⟨some egJob, some egResp, none,
        [.urlCall "/jobs/7", .sent ⟨"GET", "/jobs/7", none⟩]⟩ :=
  get_builds_path_and_unwraps egEnv 7 "/jobs/7" egResp ⟨egJob⟩ rfl rfl rfl

/-- C4: when the round trip of `JobsService.Get` succeeds with status
200 and a well-formed singleton envelope for the requested id, the
returned job's id equals the id argument. -/
theorem get_returns_requested_id (env : Env) (id : Nat) (u : String)
    (resp : HttpResponse) (jr : getJobResponse)
    (h1 : env.urlWithOptions ("/jobs/" ++ Nat.repr id) none = .ok u)
    (h2 : env.newRequest ⟨"GET", u, none⟩ = none)
    (h3 : env.doGetJob ⟨"GET", u, none⟩ = .success resp jr)
    (hstatus : resp.statusCode = 200)
    (hwf : wellFormedGetEnvelope id jr) :
    ∃ j, (JobsService.Get env id).value = some j ∧ j.id = id ∧
      (JobsService.Get env id).err = none := by
  refine ⟨jr.job, ?_, hwf, ?_⟩ <;> simp [JobsService.Get, h1, h2, h3]

/-- Witness for C4: getting job 1 from the all-succeeding environment
(whose sample job has id 1 and status 200) yields a job with id 1. -/
theorem get_returns_requested_id_witness :
    ∃ j, (JobsService.Get egEnv 1).value = some j ∧ j.id = 1 ∧
      (JobsService.Get egEnv 1).err = none :=
  get_returns_requested_id egEnv 1 "/jobs/1" egResp ⟨egJob⟩ rfl rfl rfl rfl rfl

/-- C7: `JobsService.ListFromBuild` builds the path `/builds/<buildId>`,
issues exactly one GET, and returns the build's embedded job list
exactly as decoded — same elements, same order, no filtering. -/
theorem listFromBuild_returns_embedded_jobs (env : Env) (buildId : Nat)
    (u : String) (resp : HttpResponse) (br : getBuildResponse)
    (h1 : env.urlWithOptions ("/builds/" ++ Nat.repr buildId) none = .ok u)
    (h2 : env.newRequest ⟨"GET", u, none⟩ = none)
    (h3 : env.doGetBuild ⟨"GET", u, none⟩ = .success resp br) :
    JobsService.ListFromBuild env buildId =
      ⟨some br.jobs, some resp, none,
        [.urlCall ("/builds/" ++ Nat.repr buildId), .sent ⟨"GET", u, none⟩]⟩ := by
  simp [JobsService.ListFromBuild, h1, h2, h3]

/-- Witness for C7: listing the jobs of build 3 returns the decoded
embedded list unchanged. -/
theorem listFromBuild_returns_embedded_jobs_witness :
    JobsService.ListFromBuild egEnv 3 =
      ⟨some [egJob], some egResp, none,
        [.urlCall "/builds/3", .sent ⟨"GET", "/builds/3", none⟩]⟩ :=
  listFromBuild_returns_embedded_jobs egEnv 3 "/builds/3" egResp ⟨[egJob]⟩
    rfl rfl rfl

/-- C8: `JobsService.Cancel` and `JobsService.Restart` build the action
paths `/jobs/<id>/cancel` and `/jobs/<id>/restart`, issue one POST with
no body, and return the server's response unexamined and unmodified
(its status code `respC.statusCode` / `respR.statusCode` is arbitrary
here). -/
theorem cancel_restart_action_paths (env : Env) (id : Nat) (uC uR : String)
    (respC respR : HttpResponse)
    (hC1 : env.urlWithOptions ("/jobs/" ++ Nat.repr id ++ "/cancel") none = .ok uC)
    (hC2 : env.newRequest ⟨"POST", uC, none⟩ = none)
    (hC3 : env.doNoBody ⟨"POST", uC, none⟩ = .success respC ())
    (hR1 : env.urlWithOptions ("/jobs/" ++ Nat.repr id ++ "/restart") none = .ok uR)
    (hR2 : env.newRequest ⟨"POST", uR, none⟩ = none)
    (hR3 : env.doNoBody ⟨"POST", uR, none⟩ = .success respR ()) :
    JobsService.Cancel env id =
      ⟨some respC, none,
        [.urlCall ("/jobs/" ++ Nat.repr id ++ "/cancel"), .sent ⟨"POST", uC, none⟩]⟩ ∧
    JobsService.Restart env id =
      ⟨some respR, none,
        [.urlCall ("/jobs/" ++ Nat.repr id ++ "/restart"), .sent ⟨"POST", uR, none⟩]⟩ := by
  constructor <;>
    simp [JobsService.Cancel, JobsService.Restart, hC1, hC2, hC3, hR1, hR2, hR3]

/-- Witness for C8: cancelling and restarting job 5 against the
all-succeeding environment returns the 202 response untouched. -/
theorem cancel_restart_action_paths_witness :
    JobsService.Cancel egEnv 5 =
      ⟨some egResp202, none,
        [.urlCall "/jobs/5/cancel", .sent ⟨"POST", "/jobs/5/cancel", none⟩]⟩ ∧
    JobsService.Restart egEnv 5 =
      ⟨some egResp202, none,
        [.urlCall "/jobs/5/restart", .sent ⟨"POST", "/jobs/5/restart", none⟩]⟩ :=
  cancel_restart_action_paths egEnv 5 "/jobs/5/cancel" "/jobs/5/restart"
    egResp202 egResp202 rfl rfl rfl rfl rfl rfl

/-- C6: when the round trip reports an error, `Get`, `ListFromBuild`
and `Find` return that error unchanged, together with whatever raw
response the round trip produced, and a nil typed result. -/
theorem do_error_propagated_with_raw_response (env : Env) (id bid : Nat)
    (opt : Option JobFindOptions)
    (hopt : ∀ o, opt = some o → o.IsValid = true)
    (uG uB uF : String) (rG rB rF : Option HttpResponse) (eG eB eF : String)
    (hG1 : env.urlWithOptions ("/jobs/" ++ Nat.repr id) none = .ok uG)
    (hG2 : env.newRequest ⟨"GET", uG, none⟩ = none)
    (hG3 : env.doGetJob ⟨"GET", uG, none⟩ = .failure rG eG)
    (hB1 : env.urlWithOptions ("/builds/" ++ Nat.repr bid) none = .ok uB)
    (hB2 : env.newRequest ⟨"GET", uB, none⟩ = none)
    (hB3 : env.doGetBuild ⟨"GET", uB, none⟩ = .failure rB eB)
    (hF1 : env.urlWithOptions "/jobs" opt = .ok uF)
    (hF2 : env.newRequest ⟨"GET", uF, none⟩ = none)
    (hF3 : env.doFindJobs ⟨"GET", uF, none⟩ = .failure rF eF) :
    JobsService.Get env id =
      ⟨none, rG, some eG, [.urlCall ("/jobs/" ++ Nat.repr id), .sent ⟨"GET", uG, none⟩]⟩ ∧
    JobsService.ListFromBuild env bid =
      ⟨none, rB, some eB, [.urlCall ("/builds/" ++ Nat.repr bid), .sent ⟨"GET", uB, none⟩]⟩ ∧
    JobsService.Find env opt =
      ⟨none, rF, some eF, [.urlCall "/jobs", .sent ⟨"GET", uF, none⟩]⟩ := by
  refine ⟨?_, ?_, ?_⟩
  · simp [JobsService.Get, hG1, hG2, hG3]
  · simp [JobsService.ListFromBuild, hB1, hB2, hB3]
  · cases opt with
    | none => simp [JobsService.Find, JobsService.findPipeline, hF1, hF2, hF3]
    | some o =>
        have hv := hopt o rfl
        simp [JobsService.Find, hv, JobsService.findPipeline, hF1, hF2, hF3]

/-- Witness for C6: against the decode-failing environment, all three
read operations surface the decode error and the 500 raw response. -/
theorem do_error_propagated_with_raw_response_witness :
    JobsService.Get egFailEnv 4 =
      ⟨none, some ⟨500, []⟩, some "json decode failed",
        [.urlCall "/jobs/4", .sent ⟨"GET", "/jobs/4", none⟩]⟩ ∧
    JobsService.ListFromBuild egFailEnv 4 =
      ⟨none, some ⟨500, []⟩, some "json decode failed",
        [.urlCall "/builds/4", .sent ⟨"GET", "/builds/4", none⟩]⟩ ∧
    JobsService.Find egFailEnv (some egOptState) =
      ⟨none, some ⟨500, []⟩, some "json decode failed",
        [.urlCall "/jobs", .sent ⟨"GET", "/jobs", none⟩]⟩ :=
  do_error_propagated_with_raw_response egFailEnv 4 4 (some egOptState)
    (fun o ho => by injection ho with h; exact h ▸ (by decide))
    "/jobs/4" "/builds/4" "/jobs"
    (some ⟨500, []⟩) (some ⟨500, []⟩) (some ⟨500, []⟩)
    "json decode failed" "json decode failed" "json decode failed"
    rfl rfl rfl rfl rfl rfl rfl rfl rfl

/-- C3: across all five operations, the error is nil whenever
validation passes and every collaborator succeeds, whatever the HTTP
status of the response — a non-2xx status is delivered as data in the
returned response, never as an error (the status codes of `rG`..`rR`
are unconstrained). -/
theorem err_nil_unless_validation_or_collaborator (env : Env)
    (id bid aid : Nat) (opt : Option JobFindOptions)
    (hopt : ∀ o, opt = some o → o.IsValid = true)
    (uG uB uF uC uR : String) (rG rB rF rC rR : HttpResponse)
    (jr : getJobResponse) (br : getBuildResponse) (fr : findJobsResponse)
    (hG1 : env.urlWithOptions ("/jobs/" ++ Nat.repr id) none = .ok uG)
    (hG2 : env.newRequest ⟨"GET", uG, none⟩ = none)
    (hG3 : env.doGetJob ⟨"GET", uG, none⟩ = .success rG jr)
    (hB1 : env.urlWithOptions ("/builds/" ++ Nat.repr bid) none = .ok uB)
    (hB2 : env.newRequest ⟨"GET", uB, none⟩ = none)
    (hB3 : env.doGetBuild ⟨"GET", uB, none⟩ = .success rB br)
    (hF1 : env.urlWithOptions "/jobs" opt = .ok uF)
    (hF2 : env.newRequest ⟨"GET", uF, none⟩ = none)
    (hF3 : env.doFindJobs ⟨"GET", uF, none⟩ = .success rF fr)
    (hC1 : env.urlWithOptions ("/jobs/" ++ Nat.repr aid ++ "/cancel") none = .ok uC)
    (hC2 : env.newRequest ⟨"POST", uC, none⟩ = none)
    (hC3 : env.doNoBody ⟨"POST", uC, none⟩ = .success rC ())
    (hR1 : env.urlWithOptions ("/jobs/" ++ Nat.repr aid ++ "/restart") none = .ok uR)
    (hR2 : env.newRequest ⟨"POST", uR, none⟩ = none)
    (hR3 : env.doNoBody ⟨"POST", uR, none⟩ = .success rR ()) :
    ((JobsService.Get env id).err = none ∧
      (JobsService.Get env id).resp = some rG) ∧
    ((JobsService.ListFromBuild env bid).err = none ∧
      (JobsService.ListFromBuild env bid).resp = some rB) ∧
    ((JobsService.Find env opt).err = none ∧
      (JobsService.Find env opt).resp = some rF) ∧
    ((JobsService.Cancel env aid).err = none ∧
      (JobsService.Cancel env aid).resp = some rC) ∧
    ((JobsService.Restart env aid).err = none ∧
      (JobsService.Restart env aid).resp = some rR) := by
  refine ⟨?_, ?_, ?_, ?_, ?_⟩
  · constructor <;> simp [JobsService.Get, hG1, hG2, hG3]
  · constructor <;> simp [JobsService.ListFromBuild, hB1, hB2, hB3]
  · have h : JobsService.Find env opt =
        ⟨some fr.jobs, some rF, none, [.urlCall "/jobs", .sent ⟨"GET", uF, none⟩]⟩ := by
      cases opt with
      | none => simp [JobsService.Find, JobsService.findPipeline, hF1, hF2, hF3]
      | some o =>
          have hv := hopt o rfl
          simp [JobsService.Find, hv, JobsService.findPipeline, hF1, hF2, hF3]
    constructor <;> simp [h]
  · constructor <;> simp [JobsService.Cancel, hC1, hC2, hC3]
  · constructor <;> simp [JobsService.Restart, hR1, hR2, hR3]

/-- Witness for C3: against the all-succeeding environment every
operation returns a nil error and the raw response. -/
theorem err_nil_unless_validation_or_collaborator_witness :
    ((JobsService.Get egEnv 2).err = none ∧
      (JobsService.Get egEnv 2).resp = some egResp) ∧
    ((JobsService.ListFromBuild egEnv 2).err = none ∧
      (JobsService.ListFromBuild egEnv 2).resp = some egResp) ∧
    ((JobsService.Find egEnv (some egOptState)).err = none ∧
      (JobsService.Find egEnv (some egOptState)).resp = some egResp) ∧
    ((JobsService.Cancel egEnv 2).err = none ∧
      (JobsService.Cancel egEnv 2).resp = some egResp202) ∧
    ((JobsService.Restart egEnv 2).err = none ∧
      (JobsService.Restart egEnv 2).resp = some egResp202) :=
  err_nil_unless_validation_or_collaborator egEnv 2 2 2 (some egOptState)
    (fun o ho => by injection ho with h; exact h ▸ (by decide))
    "/jobs/2" "/builds/2" "/jobs" "/jobs/2/cancel" "/jobs/2/restart"
    egResp egResp egResp egResp202 egResp202
    ⟨egJob⟩ ⟨[egJob]⟩ ⟨[egJob]⟩
    rfl rfl rfl rfl rfl rfl rfl rfl rfl rfl rfl rfl rfl rfl rfl

end Travis
